import Mathlib

/-!
Verification of the StudySnap camera and API-client logic

Shallow embedding of the image-preparation pipeline of
`src/screens/image/CameraScreen.js` and of the axios interceptors of
`src/services/api/client.js`, together with theorems settling the
specification claims about them.

Modelling conventions:

* JavaScript numbers that hold byte sizes, pixel dimensions and ids are
  embedded as `Nat`; a field that may be `undefined` is an `Option`.
* JavaScript truthiness on such a field (`x && ...`, `x || d`, `if (!x)`)
  is embedded through `Option.getD 0`: both `undefined` and `0` are falsy.
* The compression quality literals `0.5 / 0.6 / 0.7` are carried as
  integer tenths (`5 / 6 / 7`) so that all size arithmetic stays in `Nat`;
  `compressionQuality` recovers the rational value for statements about it.
* `Math.round` on a non-negative quotient `num / den` is `jsRound num den`,
  the floor of `num / den + 1 / 2` computed in integer arithmetic.
* The `expo-image-manipulator` call is an external effect: the embedding
  records each invocation (`ManipCall`) and takes the result of the call
  (a new asset, or a thrown exception) as an explicit `Except` parameter.
* The React state setters are embedded by explicit state passing; the
  `mountedRef` guard of `safeSetState` becomes a `mounted : Bool` argument
  (respectively a field of `ScreenState`).
-/

namespace StudySnap

/-- Constant `MAX_IMAGE_SIZE` from CameraScreen.js line 23: max size ~1.9MB. -/
def MAX_IMAGE_SIZE : Nat := 1900000

/-- Constant `MAX_DIMENSION` from CameraScreen.js line 24: max width/height 1200px. -/
def MAX_DIMENSION : Nat := 1200

/-- Constant `SAFETY_TIMEOUT` from CameraScreen.js line 25: 5 seconds. -/
def SAFETY_TIMEOUT : Nat := 5000

/-- An image asset as produced by `expo-image-picker` or
`expo-image-manipulator`: a `uri` plus possibly-missing pixel dimensions
and byte size. -/
structure ImageAsset where
  uri : String := ""
  width : Option Nat := none
  height : Option Nat := none
  fileSize : Option Nat := none
deriving Repr, DecidableEq

/-- The byte size of an asset under JavaScript truthiness: `undefined`
reads as `0`, and `0` is falsy exactly like `undefined`. -/
def ImageAsset.fileSizeD (a : ImageAsset) : Nat := a.fileSize.getD 0

/-- Embedding of `Math.round (num / den)` for non-negative operands: JavaScript rounds
halves up (towards positive infinity), so the result is
`⌊num / den + 1 / 2⌋ = (2 * num + den) / (2 * den)` in `Nat` division. -/
def jsRound (num den : Nat) : Nat := (2 * num + den) / (2 * den)

/-- Lines 225-232 of CameraScreen.js, in integer tenths: quality `0.5`
for original sizes above 5MB, `0.6` above 3MB, `0.7` otherwise.  The
`0.8` initialiser of line 225 is dead: every branch overwrites it. -/
def compressionQualityTenths (fileSize : Nat) : Nat :=
  if 5000000 < fileSize then 5
  else if 3000000 < fileSize then 6
  else 7

/-- The compression quality of lines 225-232 as a rational number. -/
def compressionQuality (fileSize : Nat) : ℚ :=
  (compressionQualityTenths fileSize : ℚ) / 10

/-- Lines 235-236: `imageAsset.width || 1000` and
`imageAsset.height || 1000` — a missing or zero dimension defaults
to 1000. -/
def defaultedDim (d : Option Nat) : Nat :=
  if d.getD 0 = 0 then 1000 else d.getD 0

/-- Lines 238-244: scale the longer side down to `MAX_DIMENSION`
while preserving the aspect ratio up to `Math.round`. -/
def computeTargetDims (w h : Nat) : Nat × Nat :=
  if h < w ∧ MAX_DIMENSION < w then
    (MAX_DIMENSION, jsRound (h * MAX_DIMENSION) w)
  else if MAX_DIMENSION < h then
    (jsRound (w * MAX_DIMENSION) h, MAX_DIMENSION)
  else
    (w, h)

/-- Line 257: `Math.round(width * height * quality * 0.15)` with
`quality = qualityTenths / 10`, i.e. the round of
`width * height * qualityTenths * 15 / 1000`. -/
def estimatedSize (w h qualityTenths : Nat) : Nat :=
  jsRound (w * h * qualityTenths * 15) 1000

/-- One invocation of `ImageManipulator.manipulateAsync` (lines 249-253):
the source uri, the resize dimensions and the compression quality
(in tenths). -/
structure ManipCall where
  uri : String
  width : Nat
  height : Nat
  qualityTenths : Nat
deriving Repr, DecidableEq

/-- The observable outcome of one `processImage` call: the returned value
(`null` embeds as `none`), the final value of the `processingImage` flag
(starting from `false` at entry), the `Alert.alert` calls issued
(title, message) and the manipulator invocations issued. -/
structure ProcOutcome where
  result : Option ImageAsset
  processingImage : Bool
  alerts : List (String × String)
  manipCalls : List ManipCall
deriving Repr, DecidableEq

/-- The possible shapes of the `ImagePicker` result consumed by
`processImage` (lines 194-213): a falsy/canceled result, a result
carrying an `assets` array, a bare asset carrying a `uri`
(the legacy format of line 207), or an unrecognised object. -/
inductive PickerResult where
  | canceledResult
  | assetsResult (assets : List ImageAsset)
  | directResult (asset : ImageAsset)
  | invalidResult
deriving Repr, DecidableEq

/-- Lines 194-213: which asset (if any) a picker result contributes.
A canceled or empty result, and an unrecognised format, yield none;
otherwise `assets[0]` respectively the bare asset itself. -/
def extractAsset : PickerResult → Option ImageAsset
  | .canceledResult => none
  | .assetsResult [] => none
  | .assetsResult (a :: _) => some a
  | .directResult a => some a
  | .invalidResult => none

/-- Lines 200-274 of `processImage`, from the point where an asset has
been extracted.  `mounted` is the value of `mountedRef.current`
(taken constant over the call); `manip` is the response of the
`manipulateAsync` call, `Except.error` embedding a thrown exception. -/
def processImageAsset (mounted : Bool) (a : ImageAsset)
    (manip : Except Unit ImageAsset) : ProcOutcome :=
  -- line 201: safeSetState(setProcessingImage, true)
  let flag1 : Bool := mounted
  -- line 218: imageAsset.fileSize && imageAsset.fileSize < MAX_IMAGE_SIZE
  if a.fileSizeD ≠ 0 ∧ a.fileSizeD < MAX_IMAGE_SIZE then
    { result := some a
      processingImage := if mounted then false else flag1
      alerts := []
      manipCalls := [] }
  else
    let qt := compressionQualityTenths a.fileSizeD
    let dims := computeTargetDims (defaultedDim a.width) (defaultedDim a.height)
    let call : ManipCall := ⟨a.uri, dims.1, dims.2, qt⟩
    match manip with
    | .error _ =>
        -- lines 267-274: catch, clear the flag, alert, return null
        { result := none
          processingImage := if mounted then false else flag1
          alerts := if mounted then [("Error", "Failed to process image")] else []
          manipCalls := [call] }
    | .ok m =>
        -- lines 255-262: fill in a missing fileSize with the estimate
        let m' := if m.fileSizeD = 0
                  then { m with fileSize := some (estimatedSize dims.1 dims.2 qt) }
                  else m
        -- line 264: if (!mountedRef.current) return null
        if mounted then
          { result := some m'
            processingImage := false
            alerts := []
            manipCalls := [call] }
        else
          { result := none
            processingImage := flag1
            alerts := []
            manipCalls := [call] }

/-- The whole of `processImage` (lines 193-275): the early-return checks
and asset extraction of lines 194-213 followed by the processing body. -/
def processImage (mounted : Bool) (r : PickerResult)
    (manip : Except Unit ImageAsset) : ProcOutcome :=
  match extractAsset r with
  | none => { result := none, processingImage := false, alerts := [], manipCalls := [] }
  | some a => processImageAsset mounted a manip

/-- The per-screen operation state of `CameraScreen` (lines 29-37):
the captured image, the three state flags, the `uploadingRef` and
`navigationTimeoutRef` refs and the `mountedRef`.  `timerArmed` holds
the delay of a pending safety timeout, `none` when no timeout is pending.
`pendingRequests` counts network requests currently in flight; it is not
screen state in the source, and is carried here only to express that the
local state resets never touch it. -/
structure ScreenState where
  capturedImage : Option ImageAsset := none
  loading : Bool := false
  processingImage : Bool := false
  isNavigating : Bool := false
  uploadingRef : Bool := false
  timerArmed : Option Nat := none
  mounted : Bool := true
  pendingRequests : Nat := 0
deriving Repr, DecidableEq

/-- Lines 96-98: `isOperationInProgress` is the disjunction of the three
state flags and the uploading ref. -/
def isOperationInProgress (s : ScreenState) : Bool :=
  s.loading || s.processingImage || s.isNavigating || s.uploadingRef

/-- Lines 64-76: `resetAllStates` clears the three state flags, the
uploading ref and any pending timeout — but only when the component is
still mounted, and touching nothing else. -/
def resetAllStates (s : ScreenState) : ScreenState :=
  if s.mounted then
    { s with isNavigating := false
             loading := false
             processingImage := false
             uploadingRef := false
             timerArmed := none }
  else s

/-- Lines 79-93, the body of the safety-timeout effect: when any of the
four operation indicators is set, arm a timeout of `SAFETY_TIMEOUT`
milliseconds. -/
def safetyTimeoutEffect (s : ScreenState) : ScreenState :=
  if s.isNavigating || s.loading || s.processingImage || s.uploadingRef then
    { s with timerArmed := some SAFETY_TIMEOUT }
  else s

/-- Lines 81-84: on expiry the armed timeout runs `resetAllStates`. -/
def onSafetyTimeout (s : ScreenState) : ScreenState := resetAllStates s

/-- The error thrown by a failed upload request: the HTTP status of
`error.response`, when a response exists at all. -/
structure UploadError where
  status : Option Nat := none
deriving Repr, DecidableEq

/-- The observable outcome of one `uploadImage` call: the screen state it
leaves behind, the alerts issued, the uris posted to the server and the
navigation targets of `navigation.replace`. -/
structure UploadOutcome where
  state : ScreenState
  alerts : List (String × String)
  requests : List String
  navigations : List String
deriving Repr, DecidableEq

/-- Lines 342-427: `uploadImage`.  The three guards of lines 343-356 run
first; past them the handler sets `loading` and the uploading ref, posts
the form data, and either navigates away (marking `isNavigating` and
clearing the pending timeout, lines 388-402) or alerts and resets the
flags (lines 404-426).  `folderId` is falsy when missing or zero;
`resp` is the response of the awaited `imageApi.uploadImage` call. -/
def uploadImage (s : ScreenState) (folderId : Option Nat)
    (resp : Except UploadError Unit) : UploadOutcome :=
  if s.capturedImage.isNone then
    { state := s, alerts := [("Error", "No image to upload")],
      requests := [], navigations := [] }
  else if folderId.getD 0 = 0 then
    { state := s, alerts := [("Error", "Folder ID is missing. Cannot upload image.")],
      requests := [], navigations := [] }
  else if isOperationInProgress s then
    { state := s, alerts := [], requests := [], navigations := [] }
  else
    -- lines 358-359: safeSetState(setLoading, true); uploadingRef.current = true
    let s1 := { s with loading := if s.mounted then true else s.loading
                       uploadingRef := true }
    let uri := (s.capturedImage.map ImageAsset.uri).getD ""
    match resp with
    | .ok _ =>
        -- line 388: if (!mountedRef.current) return
        if s1.mounted then
          { state := { s1 with isNavigating := true, timerArmed := none }
            alerts := []
            requests := [uri]
            navigations := ["FolderDetail"] }
        else
          { state := s1, alerts := [], requests := [uri], navigations := [] }
    | .error e =>
        if s1.mounted then
          { state := resetAllStates s1
            alerts := if e.status = some 413 then
                [("Image Too Large",
                  "The image is still too large to upload. Please try using a different image.")]
              else
                [("Upload Failed", "Unable to save your image. Please try again later.")]
            requests := [uri]
            navigations := [] }
        else
          { state := s1, alerts := [], requests := [uri], navigations := [] }

/-! ## The HTTP client (`src/services/api/client.js`) -/

/-- An axios request configuration as far as the interceptor touches it:
the endpoint url and the `Authorization` header. -/
structure RequestConfig where
  url : String := ""
  authHeader : Option String := none
deriving Repr, DecidableEq

/-- Lines 24-30: drop a leading slash from an endpoint path to avoid
double slashes after the base url. -/
def fixEndpointPath (path : String) : String :=
  if path.startsWith "/" then path.drop 1 else path

/-- Lines 33-54, the request interceptor: fix the url when it is truthy,
read the stored token, and when the token is truthy set the
`Authorization` header to the string `Bearer ` followed by the token.
`token` is the value `SecureStore.getItemAsync` resolves to
(`none` embeds a null store entry). -/
def requestInterceptor (token : Option String) (c : RequestConfig) :
    RequestConfig :=
  let c1 := if c.url ≠ "" then { c with url := fixEndpointPath c.url } else c
  match token with
  | some t => if t ≠ "" then { c1 with authHeader := some ("Bearer " ++ t) } else c1
  | none => c1

/-- An axios error as far as the response interceptor inspects it:
the HTTP status of `error.response`, `none` when there is no response
object (network error). -/
structure ApiError where
  status : Option Nat := none
deriving Repr, DecidableEq

/-- The observable outcome of the response-error interceptor: the keys
deleted from secure storage, and the value the returned promise rejects
with (`none` would mean the error was swallowed). -/
structure ErrorOutcome where
  deletedKeys : List String
  rejectedWith : Option ApiError
deriving Repr, DecidableEq

/-- Lines 92-121, the response-error interceptor: on a 401 response
delete the stored token; in every case return `Promise.reject(error)`. -/
def responseErrorInterceptor (e : ApiError) : ErrorOutcome :=
  { deletedKeys := if e.status = some 401 then ["token"] else []
    rejectedWith := some e }

/-! ## Helper lemmas -/

/-- Both target dimensions computed by lines 238-244 are at most
`MAX_DIMENSION` = 1200, whatever the input dimensions. -/
lemma computeTargetDims_le (w h : Nat) :
    (computeTargetDims w h).1 ≤ MAX_DIMENSION ∧
    (computeTargetDims w h).2 ≤ MAX_DIMENSION := by
  unfold computeTargetDims MAX_DIMENSION jsRound
  split_ifs with h1 h2
  · refine ⟨le_rfl, ?_⟩
    have hw : 0 < 2 * w := by omega
    have : 2 * (h * 1200) + w < 1201 * (2 * w) := by omega
    have := (Nat.div_lt_iff_lt_mul hw).mpr this
    omega
  · refine ⟨?_, le_rfl⟩
    have hh : 0 < 2 * h := by omega
    have : 2 * (w * 1200) + h < 1201 * (2 * h) := by omega
    have := (Nat.div_lt_iff_lt_mul hh).mpr this
    omega
  · exact ⟨by omega, by omega⟩

/-- The quality tier of lines 225-232 lies between 0.5 and 0.7
(5 and 7 tenths). -/
lemma compressionQualityTenths_bounds (fileSize : Nat) :
    5 ≤ compressionQualityTenths fileSize ∧
    compressionQualityTenths fileSize ≤ 7 := by
  unfold compressionQualityTenths
  split_ifs <;> omega

/-- The size estimate of line 257 is below the 1.9MB threshold whenever
the dimensions are at most 1200 and the quality is at most 0.7. -/
lemma estimatedSize_lt_max (w h qt : Nat)
    (hw : w ≤ MAX_DIMENSION) (hh : h ≤ MAX_DIMENSION) (hq : qt ≤ 7) :
    estimatedSize w h qt < MAX_IMAGE_SIZE := by
  unfold MAX_DIMENSION at hw hh
  unfold estimatedSize jsRound MAX_IMAGE_SIZE
  have hwh : w * h * qt * 15 ≤ 1200 * 1200 * 7 * 15 :=
    Nat.mul_le_mul (Nat.mul_le_mul (Nat.mul_le_mul hw hh) hq) le_rfl
  have : 2 * (w * h * qt * 15) + 1000 < 1900000 * (2 * 1000) := by omega
  have := (Nat.div_lt_iff_lt_mul (by omega : 0 < 2 * 1000)).mpr this
  omega

/-- On the resize path (the 1.9MB early return not taken), exactly one
manipulator call is issued, with the source uri, the computed target
dimensions and the computed quality — whether the call succeeds, throws,
or the component unmounts meanwhile. -/
lemma processImageAsset_manipCalls (mounted : Bool) (a : ImageAsset)
    (manip : Except Unit ImageAsset)
    (hbig : ¬ (a.fileSizeD ≠ 0 ∧ a.fileSizeD < MAX_IMAGE_SIZE)) :
    (processImageAsset mounted a manip).manipCalls =
      [⟨a.uri,
        (computeTargetDims (defaultedDim a.width) (defaultedDim a.height)).1,
        (computeTargetDims (defaultedDim a.width) (defaultedDim a.height)).2,
        compressionQualityTenths a.fileSizeD⟩] := by
  simp only [processImageAsset]
  rw [if_neg hbig]
  cases manip with
  | error e => rfl
  | ok m => cases mounted <;> simp

/-- When the picker result contributes the asset `a`, `processImage`
reduces to the asset-level body. -/
lemma processImage_extract (mounted : Bool) (r : PickerResult)
    (a : ImageAsset) (manip : Except Unit ImageAsset)
    (hx : extractAsset r = some a) :
    processImage mounted r manip = processImageAsset mounted a manip := by
  simp only [processImage, hx]

/-! ## Claims -/

/-- C1: for every input asset whose fileSize is known (present and
non-zero, the truthy reading of line 218) and below the 1,900,000-byte
threshold, processImage returns the input asset unchanged and invokes
no resize/compress operation, whatever the manipulator would answer. -/
theorem processImage_small_asset_unchanged
    (mounted : Bool) (r : PickerResult) (a : ImageAsset) (n : Nat)
    (manip : Except Unit ImageAsset)
    (hx : extractAsset r = some a) (hfs : a.fileSize = some n)
    (hpos : 0 < n) (hlt : n < MAX_IMAGE_SIZE) :
    (processImage mounted r manip).result = some a ∧
    (processImage mounted r manip).manipCalls = [] := by
  have hd : a.fileSizeD = n := by
    simp [ImageAsset.fileSizeD, hfs]
  simp only [processImage, hx, processImageAsset, hd]
  rw [if_pos ⟨hpos.ne', hlt⟩]
  exact ⟨rfl, rfl⟩

/-- Witness for C1 at a concrete 100,000-byte asset. -/
theorem processImage_small_asset_unchanged_instance :
    (processImage true (.assetsResult [⟨"a.jpg", none, none, some 100000⟩])
        (.error ())).result = some ⟨"a.jpg", none, none, some 100000⟩ ∧
    (processImage true (.assetsResult [⟨"a.jpg", none, none, some 100000⟩])
        (.error ())).manipCalls = [] :=
  processImage_small_asset_unchanged true _ _ 100000 (.error ()) rfl rfl
    (by norm_num) (by norm_num [MAX_IMAGE_SIZE])

/-- C4: calling uploadImage while any operation is already in flight
(the `isOperationInProgress` guard of lines 96-98, checked by the guards
of lines 343-356) leaves the screen state unchanged, issues no network
request and performs no navigation. -/
theorem uploadImage_guarded_when_in_flight
    (s : ScreenState) (folderId : Option Nat) (resp : Except UploadError Unit)
    (hop : isOperationInProgress s = true) :
    (uploadImage s folderId resp).state = s ∧
    (uploadImage s folderId resp).requests = [] ∧
    (uploadImage s folderId resp).navigations = [] := by
  unfold uploadImage
  split_ifs <;> exact ⟨rfl, rfl, rfl⟩

/-- Witness for C4: a second upload attempt while an upload is in flight
(uploading ref set, image and folder present) changes nothing. -/
theorem uploadImage_guarded_when_in_flight_instance :
    (uploadImage { capturedImage := some ⟨"a.jpg", none, none, none⟩,
                   uploadingRef := true } (some 7) (.ok ())).state
      = { capturedImage := some ⟨"a.jpg", none, none, none⟩,
          uploadingRef := true } ∧
    (uploadImage { capturedImage := some ⟨"a.jpg", none, none, none⟩,
                   uploadingRef := true } (some 7) (.ok ())).requests = [] ∧
    (uploadImage { capturedImage := some ⟨"a.jpg", none, none, none⟩,
                   uploadingRef := true } (some 7) (.ok ())).navigations = [] :=
  uploadImage_guarded_when_in_flight _ _ _ (by rfl)

/-- C6: the compression quality of lines 225-232 is non-increasing in the
original file size, and takes the tier values 0.5 above 5MB, 0.6 above
3MB, and 0.7 otherwise. -/
theorem compressionQuality_tiers_antitone :
    (∀ s1 s2 : Nat, s1 ≤ s2 → compressionQuality s2 ≤ compressionQuality s1) ∧
    (∀ s : Nat, 5000000 < s → compressionQuality s = 1 / 2) ∧
    (∀ s : Nat, 3000000 < s → s ≤ 5000000 → compressionQuality s = 3 / 5) ∧
    (∀ s : Nat, s ≤ 3000000 → compressionQuality s = 7 / 10) := by
  refine ⟨?_, ?_, ?_, ?_⟩
  · intro s1 s2 h
    have ht : compressionQualityTenths s2 ≤ compressionQualityTenths s1 := by
      unfold compressionQualityTenths
      split_ifs <;> omega
    unfold compressionQuality
    have h10 : (0 : ℚ) < 10 := by norm_num
    rw [div_le_div_iff_of_pos_right h10]
    exact_mod_cast ht
  · intro s hs
    unfold compressionQuality compressionQualityTenths
    rw [if_pos hs]
    norm_num
  · intro s hs3 hs5
    unfold compressionQuality compressionQualityTenths
    rw [if_neg (by omega), if_pos hs3]
    norm_num
  · intro s hs
    unfold compressionQuality compressionQualityTenths
    rw [if_neg (by omega), if_neg (by omega)]
    norm_num

/-- Witness for C6 at sizes 1MB, 4MB and 6MB. -/
theorem compressionQuality_tiers_antitone_instance :
    compressionQuality 6000000 ≤ compressionQuality 1000000 ∧
    compressionQuality 6000000 = 1 / 2 ∧
    compressionQuality 4000000 = 3 / 5 ∧
    compressionQuality 1000000 = 7 / 10 :=
  ⟨compressionQuality_tiers_antitone.1 1000000 6000000 (by norm_num),
   compressionQuality_tiers_antitone.2.1 6000000 (by norm_num),
   compressionQuality_tiers_antitone.2.2.1 4000000 (by norm_num) (by norm_num),
   compressionQuality_tiers_antitone.2.2.2 1000000 (by norm_num)⟩

/-- C7: on a mounted screen, whenever any of the four operation
indicators is set the safety effect arms a timeout of exactly 5000 ms,
and its expiry resets exactly the three flags, the uploading ref and the
pending timeout — the captured image and any in-flight request are
untouched. -/
theorem safetyTimeout_arms_and_resets_only_flags
    (s : ScreenState) (hm : s.mounted = true) :
    (isOperationInProgress s = true →
       (safetyTimeoutEffect s).timerArmed = some 5000) ∧
    onSafetyTimeout s =
      { s with isNavigating := false, loading := false, processingImage := false,
               uploadingRef := false, timerArmed := none } ∧
    (onSafetyTimeout s).capturedImage = s.capturedImage ∧
    (onSafetyTimeout s).pendingRequests = s.pendingRequests := by
  have hreset : onSafetyTimeout s =
      { s with isNavigating := false, loading := false, processingImage := false,
               uploadingRef := false, timerArmed := none } := by
    unfold onSafetyTimeout resetAllStates
    rw [if_pos hm]
  refine ⟨?_, hreset, by rw [hreset], by rw [hreset]⟩
  intro hop
  unfold isOperationInProgress at hop
  unfold safetyTimeoutEffect
  rw [if_pos]
  · rfl
  · cases hl : s.loading <;> cases hp : s.processingImage <;>
      cases hn : s.isNavigating <;> cases hu : s.uploadingRef <;>
      simp_all [SAFETY_TIMEOUT]

/-- Witness for C7 on a mounted screen with a stuck loading flag. -/
theorem safetyTimeout_arms_and_resets_only_flags_instance :
    ((isOperationInProgress { loading := true } = true →
       (safetyTimeoutEffect { loading := true }).timerArmed = some 5000) ∧
     onSafetyTimeout { loading := true } =
       { ({ loading := true } : ScreenState) with
           isNavigating := false, loading := false, processingImage := false,
           uploadingRef := false, timerArmed := none } ∧
     (onSafetyTimeout { loading := true }).capturedImage
       = ScreenState.capturedImage { loading := true } ∧
     (onSafetyTimeout { loading := true }).pendingRequests
       = ScreenState.pendingRequests { loading := true }) ∧
    (safetyTimeoutEffect { loading := true }).timerArmed = some 5000 :=
  ⟨safetyTimeout_arms_and_resets_only_flags { loading := true } rfl,
   (safetyTimeout_arms_and_resets_only_flags { loading := true } rfl).1 rfl⟩

/-- C8: the request interceptor of lines 33-54 attaches the header
`Bearer ` followed by the stored token to every request issued while a
(non-empty) token is stored. -/
theorem requestInterceptor_attaches_bearer_token
    (c : RequestConfig) (t : String) (ht : t ≠ "") :
    (requestInterceptor (some t) c).authHeader = some ("Bearer " ++ t) := by
  simp only [requestInterceptor]
  rw [if_pos ht]

/-- Witness for C8 on a concrete request and token. -/
theorem requestInterceptor_attaches_bearer_token_instance :
    (requestInterceptor (some "tok123") ⟨"/folders", none⟩).authHeader
      = some ("Bearer " ++ "tok123") :=
  requestInterceptor_attaches_bearer_token ⟨"/folders", none⟩ "tok123"
    (by decide)

/-- C10: on a response with HTTP status 401 the response interceptor of
lines 92-121 deletes the stored token key from secure storage and still
rejects with the original error rather than swallowing it. -/
theorem responseInterceptor_401_clears_token_and_rejects
    (e : ApiError) (h : e.status = some 401) :
    (responseErrorInterceptor e).deletedKeys = ["token"] ∧
    (responseErrorInterceptor e).rejectedWith = some e := by
  unfold responseErrorInterceptor
  rw [if_pos h]
  exact ⟨rfl, rfl⟩

/-- Witness for C10 on a concrete 401 error. -/
theorem responseInterceptor_401_clears_token_and_rejects_instance :
    (responseErrorInterceptor ⟨some 401⟩).deletedKeys = ["token"] ∧
    (responseErrorInterceptor ⟨some 401⟩).rejectedWith = some ⟨some 401⟩ :=
  responseInterceptor_401_clears_token_and_rejects ⟨some 401⟩ rfl

/-- C2: for an over-threshold asset with known (truthy) width and height
whose longer side exceeds 1200, the resize call sets the longer side to
exactly `MAX_DIMENSION` = 1200 and the other side to the rounded
proportional value: width 1200 when width is strictly longer, height
1200 when height is at least the width. -/
theorem processImage_scales_longer_side_to_1200
    (mounted : Bool) (r : PickerResult) (a : ImageAsset) (w h n : Nat)
    (manip : Except Unit ImageAsset)
    (hx : extractAsset r = some a)
    (hw : a.width = some w) (hh : a.height = some h)
    (hw0 : w ≠ 0) (hh0 : h ≠ 0)
    (hfs : a.fileSize = some n) (hn : MAX_IMAGE_SIZE ≤ n) :
    ((h < w ∧ MAX_DIMENSION < w) →
       (processImage mounted r manip).manipCalls =
         [⟨a.uri, MAX_DIMENSION, jsRound (h * MAX_DIMENSION) w,
           compressionQualityTenths n⟩]) ∧
    ((w ≤ h ∧ MAX_DIMENSION < h) →
       (processImage mounted r manip).manipCalls =
         [⟨a.uri, jsRound (w * MAX_DIMENSION) h, MAX_DIMENSION,
           compressionQualityTenths n⟩]) := by
  have hd : a.fileSizeD = n := by simp [ImageAsset.fileSizeD, hfs]
  have hdw : defaultedDim a.width = w := by simp [defaultedDim, hw, hw0]
  have hdh : defaultedDim a.height = h := by simp [defaultedDim, hh, hh0]
  have hcalls := processImageAsset_manipCalls mounted a manip (by omega)
  rw [hd, hdw, hdh] at hcalls
  rw [processImage_extract mounted r a manip hx]
  constructor
  · intro hcase
    have hdims : computeTargetDims w h =
        (MAX_DIMENSION, jsRound (h * MAX_DIMENSION) w) := by
      unfold computeTargetDims
      rw [if_pos hcase]
    rw [hcalls, hdims]
  · rintro ⟨h1, h2⟩
    have hdims : computeTargetDims w h =
        (jsRound (w * MAX_DIMENSION) h, MAX_DIMENSION) := by
      unfold computeTargetDims
      rw [if_neg (by omega), if_pos h2]
    rw [hcalls, hdims]

/-- Witness for C2: a 4000 x 3000 landscape asset of 2MB is resized to
1200 x 900 at quality 0.7, and a 3000 x 4000 portrait one to 900 x 1200. -/
theorem processImage_scales_longer_side_to_1200_instance :
    (processImage true
        (.assetsResult [⟨"a.jpg", some 4000, some 3000, some 2000000⟩])
        (.ok ⟨"out.jpg", none, none, none⟩)).manipCalls =
      [⟨"a.jpg", MAX_DIMENSION, jsRound (3000 * MAX_DIMENSION) 4000,
        compressionQualityTenths 2000000⟩] ∧
    (processImage true
        (.assetsResult [⟨"b.jpg", some 3000, some 4000, some 2000000⟩])
        (.ok ⟨"out.jpg", none, none, none⟩)).manipCalls =
      [⟨"b.jpg", jsRound (3000 * MAX_DIMENSION) 4000, MAX_DIMENSION,
        compressionQualityTenths 2000000⟩] :=
  ⟨(processImage_scales_longer_side_to_1200 true
      (.assetsResult [⟨"a.jpg", some 4000, some 3000, some 2000000⟩])
      ⟨"a.jpg", some 4000, some 3000, some 2000000⟩ 4000 3000 2000000
      (.ok ⟨"out.jpg", none, none, none⟩)
      rfl rfl rfl (by norm_num) (by norm_num) rfl
      (by norm_num [MAX_IMAGE_SIZE])).1
      ⟨by norm_num, by norm_num [MAX_DIMENSION]⟩,
   (processImage_scales_longer_side_to_1200 true
      (.assetsResult [⟨"b.jpg", some 3000, some 4000, some 2000000⟩])
      ⟨"b.jpg", some 3000, some 4000, some 2000000⟩ 3000 4000 2000000
      (.ok ⟨"out.jpg", none, none, none⟩)
      rfl rfl rfl (by norm_num) (by norm_num) rfl
      (by norm_num [MAX_IMAGE_SIZE])).2
      ⟨by norm_num, by norm_num [MAX_DIMENSION]⟩⟩

/-- C9: an over-threshold asset with both dimensions missing defaults
each dimension to 1000 (lines 235-236) and is resized to exactly
1000 x 1000, regardless of its actual aspect ratio. -/
theorem processImage_missing_dims_resize_1000
    (mounted : Bool) (r : PickerResult) (a : ImageAsset) (n : Nat)
    (manip : Except Unit ImageAsset)
    (hx : extractAsset r = some a)
    (hw : a.width = none) (hh : a.height = none)
    (hfs : a.fileSize = some n) (hn : MAX_IMAGE_SIZE ≤ n) :
    (processImage mounted r manip).manipCalls =
      [⟨a.uri, 1000, 1000, compressionQualityTenths n⟩] := by
  have hd : a.fileSizeD = n := by simp [ImageAsset.fileSizeD, hfs]
  have hdw : defaultedDim a.width = 1000 := by simp [defaultedDim, hw]
  have hdh : defaultedDim a.height = 1000 := by simp [defaultedDim, hh]
  have hdims : computeTargetDims 1000 1000 = (1000, 1000) := by
    unfold computeTargetDims MAX_DIMENSION
    norm_num
  have hcalls := processImageAsset_manipCalls mounted a manip (by omega)
  rw [hd, hdw, hdh, hdims] at hcalls
  rw [processImage_extract mounted r a manip hx, hcalls]

/-- Witness for C9 at a concrete 2.5MB asset with no dimensions. -/
theorem processImage_missing_dims_resize_1000_instance :
    (processImage true (.assetsResult [⟨"a.jpg", none, none, some 2500000⟩])
        (.ok ⟨"out.jpg", none, none, none⟩)).manipCalls =
      [⟨"a.jpg", 1000, 1000, compressionQualityTenths 2500000⟩] :=
  processImage_missing_dims_resize_1000 true
    (.assetsResult [⟨"a.jpg", none, none, some 2500000⟩])
    ⟨"a.jpg", none, none, some 2500000⟩ 2500000
    (.ok ⟨"out.jpg", none, none, none⟩) rfl rfl rfl rfl
    (by norm_num [MAX_IMAGE_SIZE])

/-- C5: when the manipulator call throws on a mounted screen, the
exception is caught: the processing flag ends cleared, exactly one
error alert is surfaced, the returned value is null (aborting the upload
flow), and the manipulator was invoked exactly once — no retry. -/
theorem processImage_manip_error_aborts
    (r : PickerResult) (a : ImageAsset)
    (hx : extractAsset r = some a)
    (hbig : ¬ (a.fileSizeD ≠ 0 ∧ a.fileSizeD < MAX_IMAGE_SIZE)) :
    processImage true r (.error ()) =
      { result := none
        processingImage := false
        alerts := [("Error", "Failed to process image")]
        manipCalls := [⟨a.uri,
          (computeTargetDims (defaultedDim a.width) (defaultedDim a.height)).1,
          (computeTargetDims (defaultedDim a.width) (defaultedDim a.height)).2,
          compressionQualityTenths a.fileSizeD⟩] } := by
  rw [processImage_extract true r a (.error ()) hx]
  simp only [processImageAsset]
  rw [if_neg hbig]
  simp

/-- Witness for C5 at a concrete 2MB asset whose resize call throws. -/
theorem processImage_manip_error_aborts_instance :
    processImage true
        (.assetsResult [⟨"a.jpg", some 4000, some 3000, some 2000000⟩])
        (.error ()) =
      { result := none
        processingImage := false
        alerts := [("Error", "Failed to process image")]
        manipCalls := [⟨"a.jpg",
          (computeTargetDims (defaultedDim (some 4000)) (defaultedDim (some 3000))).1,
          (computeTargetDims (defaultedDim (some 4000)) (defaultedDim (some 3000))).2,
          compressionQualityTenths ((⟨"a.jpg", some 4000, some 3000, some 2000000⟩ : ImageAsset).fileSizeD)⟩] } :=
  processImage_manip_error_aborts
    (.assetsResult [⟨"a.jpg", some 4000, some 3000, some 2000000⟩])
    ⟨"a.jpg", some 4000, some 3000, some 2000000⟩ rfl (by decide)

/-- C3 counterexample: the code never compares a size reported by the
manipulator against the input size.  For a 1,900,000-byte input asset
whose resize call reports a 2,500,000-byte result, processImage returns
that asset with the reported size kept: the returned fileSize is not
strictly lower than the input fileSize. -/
theorem processImage_reported_size_not_lower :
    (1900000 : Nat) ≤ 1900000 ∧
    (processImage true
        (.assetsResult [⟨"big.jpg", some 4000, some 3000, some 1900000⟩])
        (.ok ⟨"out.jpg", some 1200, some 900, some 2500000⟩)).result =
      some ⟨"out.jpg", some 1200, some 900, some 2500000⟩ ∧
    ¬ ((2500000 : Nat) < 1900000) :=
  ⟨by norm_num, by decide, by norm_num⟩

/-- C3 (amended): for an input asset whose fileSize is at least 1,900,000
bytes, when the resize call reports no size, the returned asset carries
the estimated fileSize `round(targetWidth * targetHeight * quality * 0.15)`
(line 257), and this estimate is strictly lower than the input fileSize. -/
theorem processImage_estimate_below_input
    (r : PickerResult) (a m : ImageAsset) (n : Nat)
    (hx : extractAsset r = some a)
    (hfs : a.fileSize = some n) (hn : MAX_IMAGE_SIZE ≤ n)
    (hm : m.fileSize = none) :
    (processImage true r (.ok m)).result =
      some { m with fileSize := some (estimatedSize
        (computeTargetDims (defaultedDim a.width) (defaultedDim a.height)).1
        (computeTargetDims (defaultedDim a.width) (defaultedDim a.height)).2
        (compressionQualityTenths n)) } ∧
    estimatedSize
        (computeTargetDims (defaultedDim a.width) (defaultedDim a.height)).1
        (computeTargetDims (defaultedDim a.width) (defaultedDim a.height)).2
        (compressionQualityTenths n) < n := by
  have hd : a.fileSizeD = n := by simp [ImageAsset.fileSizeD, hfs]
  have hmd : m.fileSizeD = 0 := by simp [ImageAsset.fileSizeD, hm]
  constructor
  · rw [processImage_extract true r a (.ok m) hx]
    simp only [processImageAsset, hd, hmd]
    rw [if_neg (by omega)]
    simp
  · have hW := (computeTargetDims_le (defaultedDim a.width) (defaultedDim a.height)).1
    have hH := (computeTargetDims_le (defaultedDim a.width) (defaultedDim a.height)).2
    have hq := (compressionQualityTenths_bounds n).2
    have hlt := estimatedSize_lt_max _ _ _ hW hH hq
    omega

/-- Witness for C3 (amended) at a 4000 x 3000 asset of 2MB whose resize
call reports no size: the estimate 113,400 = round(1200 * 900 * 0.7 * 0.15)
is returned and is below 2,000,000. -/
theorem processImage_estimate_below_input_instance :
    (processImage true
        (.assetsResult [⟨"a.jpg", some 4000, some 3000, some 2000000⟩])
        (.ok ⟨"out.jpg", none, none, none⟩)).result =
      some { (⟨"out.jpg", none, none, none⟩ : ImageAsset) with
               fileSize := some (estimatedSize
        (computeTargetDims (defaultedDim (some 4000)) (defaultedDim (some 3000))).1
        (computeTargetDims (defaultedDim (some 4000)) (defaultedDim (some 3000))).2
        (compressionQualityTenths 2000000)) } ∧
    estimatedSize
        (computeTargetDims (defaultedDim (some 4000)) (defaultedDim (some 3000))).1
        (computeTargetDims (defaultedDim (some 4000)) (defaultedDim (some 3000))).2
        (compressionQualityTenths 2000000) < 2000000 :=
  processImage_estimate_below_input
    (.assetsResult [⟨"a.jpg", some 4000, some 3000, some 2000000⟩])
    ⟨"a.jpg", some 4000, some 3000, some 2000000⟩
    ⟨"out.jpg", none, none, none⟩ 2000000 rfl rfl
    (by norm_num [MAX_IMAGE_SIZE]) rfl

end StudySnap
